import Mathlib

/-!
Verification of the SpeedFrogger gameplay core (src/js/app.js).

JavaScript numbers are modelled as rationals (`ℚ`); grid indices
(row/column numbers), scores and the countdown clock are integers in
every use the program makes of them, so they are modelled as `ℤ`.
`Math.random()` values are passed in explicitly as rationals in `[0,1)`.
Timer callbacks (`setInterval` ticks) are modelled as explicit step
functions on a state carrying a `cancelled` flag.
-/

namespace SpeedFrogger

/-! ## Shared MapCharacter constants and grid geometry (app.js lines 12-63) -/

def collisionBuffer : ℚ := 26

def MAP_ROWS : ℤ := 6

def MAP_COLS : ℤ := 5

def X_START : ℚ := 0

def X_OFFSET : ℚ := 101

def Y_START : ℚ := 45

def Y_OFFSET : ℚ := 83

def CHAR_SIZE_X : ℚ := 101

def CHAR_SIZE_Y : ℚ := 83

/-- `MapCharacter.prototype.getYOffsetForRow` -/
def getYOffsetForRow (rowNum : ℤ) : ℚ := Y_START + (rowNum : ℚ) * Y_OFFSET

/-- `MapCharacter.prototype.getXOffsetForCol` -/
def getXOffsetForCol (colNum : ℤ) : ℚ := X_START + (colNum : ℚ) * X_OFFSET

/-- The record returned by `MapCharacter.prototype.getCollisionDims`
and consumed by `isCollision`. -/
structure Rect where
  xPos : ℚ
  yPos : ℚ
  width : ℚ
  height : ℚ
deriving DecidableEq, Repr

/-- `MapCharacter.prototype.getCollisionDims`, as a function of the
character's pixel position (x, y). -/
def collisionDimsAt (x y : ℚ) : Rect :=
  let halfBuff := collisionBuffer / 2
  { xPos := x + halfBuff
    yPos := y + halfBuff
    width := CHAR_SIZE_X - collisionBuffer
    height := CHAR_SIZE_Y - collisionBuffer }

/-! ## Collision detector (app.js lines 437-441) -/

/-- `isCollision(rect1, rect2)` from app.js. -/
def isCollision (rect1 rect2 : Rect) : Bool :=
  let noIntersectionX : Bool :=
    decide (rect1.xPos > rect2.xPos + rect2.width) ||
    decide (rect1.xPos < rect2.xPos - rect1.width)
  let noIntersectionY : Bool :=
    decide (rect1.yPos > rect2.yPos + rect2.height) ||
    decide (rect1.yPos < rect2.yPos - rect1.height)
  !noIntersectionX && !noIntersectionY

/-! ## Enemy (app.js lines 73-118) -/

def MIN_SPEED : ℚ := 75

def MAX_SPEED : ℚ := 320

structure Enemy where
  x : ℚ
  y : ℚ
  speed : ℚ
deriving DecidableEq, Repr

/-- `Enemy.prototype.reset`; `r1` and `r2` are the two `Math.random()`
draws (each in `[0,1)`). -/
def Enemy.reset (r1 r2 : ℚ) : Enemy :=
  { x := X_START - X_OFFSET
    y := getYOffsetForRow (⌊r1 * (4 - 1)⌋ + 1)
    speed := r2 * (MAX_SPEED - MIN_SPEED) + MIN_SPEED }

/-- `Enemy.prototype.update(dt)`; the random draws are consumed only if
the enemy recycles. -/
def Enemy.update (e : Enemy) (dt r1 r2 : ℚ) : Enemy :=
  let x' := e.x + dt * e.speed
  if x' > getXOffsetForCol MAP_COLS + X_OFFSET then Enemy.reset r1 r2
  else { e with x := x' }

def Enemy.getCollisionDims (e : Enemy) : Rect := collisionDimsAt e.x e.y

/-! ## Player (app.js lines 128-206) -/

structure Player where
  row : ℤ
  col : ℤ
  x : ℚ
  y : ℚ
  movingEnabled : Bool
deriving DecidableEq, Repr

/-- `Player.prototype.reset` -/
def Player.reset (p : Player) : Player :=
  let row := MAP_ROWS - 1
  let col := ⌊(MAP_COLS : ℚ) / 2⌋
  { p with row := row, col := col
           x := getXOffsetForCol col, y := getYOffsetForRow row }

/-- `Player.prototype.update`: recompute pixel position from (row, col). -/
def Player.update (p : Player) : Player :=
  { p with x := getXOffsetForCol p.col, y := getYOffsetForRow p.row }

/-- `Player.prototype.enableMoves` -/
def Player.enableMoves (p : Player) (shouldEnable : Bool) : Player :=
  { p with movingEnabled := shouldEnable }

/-- `Player.prototype.handleInput` -/
def Player.handleInput (p : Player) (inputKey : String) : Player :=
  if p.movingEnabled then
    if inputKey = "left" then
      (if p.col > 0 then { p with col := p.col - 1 } else p)
    else if inputKey = "right" then
      (if p.col < MAP_COLS - 1 then { p with col := p.col + 1 } else p)
    else if inputKey = "up" then
      (if p.row > 0 then { p with row := p.row - 1 } else p)
    else if inputKey = "down" then
      (if p.row < MAP_ROWS - 1 then { p with row := p.row + 1 } else p)
    else p
  else p

/-- The player as built by the `Player` constructor (which calls
`reset()` and then sets `movingEnabled = true`). -/
def Player.initial : Player :=
  Player.reset { row := 0, col := 0, x := 0, y := 0, movingEnabled := true }

def Player.getCollisionDims (p : Player) : Rect := collisionDimsAt p.x p.y

/-! ## Bonus item (app.js lines 215-228) -/

structure BonusItem where
  x : ℚ
  y : ℚ
deriving DecidableEq, Repr

/-- The `BonusItem` constructor; `r1`, `r2` are the two
`Math.random()` draws. -/
def BonusItem.create (r1 r2 : ℚ) : BonusItem :=
  { x := getXOffsetForCol ⌊r1 * (MAP_COLS : ℚ)⌋
    y := getYOffsetForRow (⌊r2 * (3 - 1)⌋ + 1) }

def BonusItem.getCollisionDims (b : BonusItem) : Rect := collisionDimsAt b.x b.y

/-! ## Scoreboard and the global game state (app.js lines 246-426, 448-452)

The Scoreboard's fields together with the global `player`, `allEnemies`
and `bonusItems` form the mutable state that the scoreboard methods
read and write; we gather them into one `World` record and render each
method as a function `World → World`. -/

def GAME_TIME : ℤ := 60

structure World where
  score : ℤ
  won : Bool
  lost : Bool
  bonus : Bool
  currentTime : ℤ
  running : Bool
  gameOver : Bool
  player : Player
  allEnemies : List Enemy
  bonusItems : List BonusItem
deriving DecidableEq, Repr

/-- `Scoreboard.prototype.checkWinAndCollision` (called from
`Scoreboard.prototype.update`).  The enemy loop breaks on the first
colliding enemy but its effects do not depend on which one hit, so it
is rendered with `List.any`; note that `playerDims` is captured before
the enemy loop and reused, unrecomputed, by the bonus loop.  The
`endWinState` / `endLoseState` / `endBonusState` calls only schedule
delayed callbacks and change no state synchronously. -/
def checkWinAndCollision (w : World) : World :=
  if w.running then
    if w.player.row ≤ 0 then
      { w with won := true, score := w.score + 1,
               player := (w.player.reset).enableMoves false }
    else
      let playerDims := w.player.getCollisionDims
      let w1 :=
        if w.allEnemies.any (fun e => isCollision playerDims e.getCollisionDims) then
          { w with score := w.score - 1, lost := true,
                   player := (w.player.reset).enableMoves false }
        else w
      if w.bonusItems.any (fun b => isCollision playerDims b.getCollisionDims) then
        { w1 with score := w1.score + 1, bonus := true, bonusItems := [] }
      else w1
  else w

/-- `Scoreboard.prototype.update` -/
def Scoreboard.update (w : World) : World := checkWinAndCollision w

/-- `Scoreboard.prototype.startGame`; `rands` supplies the two
`Math.random()` draws consumed by each of the seven `new Enemy()`
constructions.  The `countdown()` and `manageBonusItems()` calls start
interval timers, modelled separately as tick functions below. -/
def startGame (w : World) (rands : Fin 7 → ℚ × ℚ) : World :=
  { w with running := true
           currentTime := GAME_TIME
           gameOver := false
           allEnemies :=
             w.allEnemies ++ List.ofFn (fun i : Fin 7 => Enemy.reset (rands i).1 (rands i).2)
           player := w.player.enableMoves true }

/-- `Scoreboard.prototype.handleGameOver` -/
def handleGameOver (w : World) : World :=
  { w with running := false
           player := (w.player.enableMoves false).reset
           allEnemies := []
           bonusItems := []
           gameOver := true }

/-! ## The countdown interval (app.js lines 334-344)

Each `setInterval` firing is one `countdownTick`.  `cancelled` records
whether `clearInterval` has run (a cancelled interval never fires
again, so a tick on a cancelled state is the identity), and
`gameOverCalls` counts the `handleGameOver()` invocations. -/

structure CountdownState where
  world : World
  cancelled : Bool
  gameOverCalls : ℕ
deriving DecidableEq, Repr

/-- One firing of the interval callback inside
`Scoreboard.prototype.countdown`. -/
def countdownTick (s : CountdownState) : CountdownState :=
  if s.cancelled then s
  else if s.world.currentTime = 0 then
    { world := handleGameOver s.world
      cancelled := true
      gameOverCalls := s.gameOverCalls + 1 }
  else
    { s with world := { s.world with currentTime := s.world.currentTime - 1 } }

/-- `n` successive firings of the countdown interval. -/
def countdownRun : ℕ → CountdownState → CountdownState
  | 0, s => s
  | n + 1, s => countdownRun n (countdownTick s)

/-! ## The discrete input model used for the player invariant -/

/-- One interaction with the player object: a keyboard input forwarded
by the `keyup` listener, or an `enableMoves` call from the scoreboard. -/
inductive PStep where
  | input (s : String)
  | enable (b : Bool)
deriving DecidableEq, Repr

def applyPStep (p : Player) : PStep → Player
  | PStep.input s => p.handleInput s
  | PStep.enable b => p.enableMoves b

def runPSteps (p : Player) (steps : List PStep) : Player :=
  steps.foldl applyPStep p

def PlayerInBounds (p : Player) : Prop :=
  0 ≤ p.row ∧ p.row ≤ MAP_ROWS - 1 ∧ 0 ≤ p.col ∧ p.col ≤ MAP_COLS - 1

/-! ## Concrete game states used as test inputs -/

/-- A running world whose player stands on the goal row. -/
def winWorld : World :=
  { score := 3, won := false, lost := false, bonus := false, currentTime := 40,
    running := true, gameOver := false,
    player := { row := 0, col := 2, x := 202, y := 45, movingEnabled := true },
    allEnemies := [], bonusItems := [] }

/-- An idle world, as right after the `Scoreboard` constructor ran. -/
def idleWorld : World :=
  { score := 0, won := false, lost := false, bonus := false, currentTime := 60,
    running := false, gameOver := false,
    player := { row := 5, col := 2, x := 202, y := 460, movingEnabled := false },
    allEnemies := [], bonusItems := [] }

/-- A player standing at grid cell (row 2, col 2), pixel (202, 211). -/
def midPlayer : Player :=
  { row := 2, col := 2, x := 202, y := 211, movingEnabled := true }

/-- A running world where the player overlaps BOTH an enemy and a
bonus item (all three share the pixel position (202, 211)). -/
def dualHitWorld : World :=
  { score := 0, won := false, lost := false, bonus := false, currentTime := 40,
    running := true, gameOver := false, player := midPlayer,
    allEnemies := [{ x := 202, y := 211, speed := 100 }],
    bonusItems := [{ x := 202, y := 211 }] }

/-- A running world where the player overlaps only a bonus item. -/
def bonusOnlyWorld : World :=
  { dualHitWorld with allEnemies := [] }

/-- A running world where the player overlaps only an enemy. -/
def hazardOnlyWorld : World :=
  { dualHitWorld with bonusItems := [] }

/-- A no-longer-running world whose countdown clock still reads 5. -/
def stoppedClockWorld : World :=
  { score := 0, won := false, lost := false, bonus := false, currentTime := 5,
    running := false, gameOver := true,
    player := { row := 5, col := 2, x := 202, y := 460, movingEnabled := false },
    allEnemies := [], bonusItems := [] }

/-- An active countdown two ticks away from expiry. -/
def nearExpiryCountdown : CountdownState :=
  { world := { winWorld with player := midPlayer, currentTime := 2 },
    cancelled := false, gameOverCalls := 0 }

/-! ## Helper lemmas -/

lemma floor_cols_half : ⌊(MAP_COLS : ℚ) / 2⌋ = 2 := by
  rw [MAP_COLS]
  rw [Int.floor_eq_iff]
  norm_num

lemma isCollision_eq_true_iff (A B : Rect) :
    isCollision A B = true ↔
      (B.xPos - A.width ≤ A.xPos ∧ A.xPos ≤ B.xPos + B.width ∧
       B.yPos - A.height ≤ A.yPos ∧ A.yPos ≤ B.yPos + B.height) := by
  simp only [isCollision, Bool.and_eq_true, Bool.not_eq_true', Bool.or_eq_false_iff,
    decide_eq_false_iff_not, not_lt]
  constructor
  · rintro ⟨⟨hx2, hx1⟩, ⟨hy2, hy1⟩⟩
    exact ⟨hx1, hx2, hy1, hy2⟩
  · rintro ⟨hx1, hx2, hy1, hy2⟩
    exact ⟨⟨hx2, hx1⟩, ⟨hy2, hy1⟩⟩

lemma isCollision_comm (A B : Rect) : isCollision A B = isCollision B A := by
  by_cases h : isCollision A B = true
  · obtain ⟨hx1, hx2, hy1, hy2⟩ := (isCollision_eq_true_iff A B).mp h
    rw [h, eq_comm]
    exact (isCollision_eq_true_iff B A).mpr
      ⟨by linarith, by linarith, by linarith, by linarith⟩
  · have h' : ¬ isCollision B A = true := by
      intro hb
      obtain ⟨hx1, hx2, hy1, hy2⟩ := (isCollision_eq_true_iff B A).mp hb
      exact h ((isCollision_eq_true_iff A B).mpr
        ⟨by linarith, by linarith, by linarith, by linarith⟩)
    rw [Bool.not_eq_true] at h h'
    rw [h, h']

/-! ## Claims about grid geometry and the collision detector -/

/-- Claim C8: the grid geometry functions are pure and satisfy
`rowToY(row) = 45 + 83*row` and `colToX(col) = 0 + 101*col`; in
particular row 0 maps to y = 45, row 1 to y = 128, col 0 to x = 0 and
col 1 to x = 101. -/
theorem grid_geometry_values (row col : ℤ) :
    getYOffsetForRow row = 45 + 83 * (row : ℚ) ∧
    getXOffsetForCol col = 0 + 101 * (col : ℚ) ∧
    getYOffsetForRow 0 = 45 ∧ getYOffsetForRow 1 = 128 ∧
    getXOffsetForCol 0 = 0 ∧ getXOffsetForCol 1 = 101 := by
  refine ⟨?_, ?_, ?_, ?_, ?_, ?_⟩ <;>
    simp [getYOffsetForRow, getXOffsetForCol, X_START, X_OFFSET, Y_START, Y_OFFSET] <;>
    ring

/-- Claim C4: `isCollision(A,B)` is true iff there is overlap on both
axes, where no-overlap on x means `A.xPos > B.xPos + B.width` or
`A.xPos < B.xPos - A.width` (symmetrically on y); it is true for two
boxes with identical position and size (of nonnegative dimensions),
and false for boxes separated on one axis by more than both
widths/heights. -/
theorem isCollision_overlap_spec (A B : Rect) :
    (isCollision A B = true ↔
      ¬ (A.xPos > B.xPos + B.width ∨ A.xPos < B.xPos - A.width) ∧
      ¬ (A.yPos > B.yPos + B.height ∨ A.yPos < B.yPos - A.height)) ∧
    (0 ≤ A.width → 0 ≤ A.height → isCollision A A = true) ∧
    (0 ≤ A.width → 0 ≤ B.width → A.width + B.width < |A.xPos - B.xPos| →
        isCollision A B = false) ∧
    (0 ≤ A.height → 0 ≤ B.height → A.height + B.height < |A.yPos - B.yPos| →
        isCollision A B = false) := by
  refine ⟨?_, ?_, ?_, ?_⟩
  · rw [isCollision_eq_true_iff]
    push_neg
    constructor
    · rintro ⟨hx1, hx2, hy1, hy2⟩
      exact ⟨⟨hx2, hx1⟩, ⟨hy2, hy1⟩⟩
    · rintro ⟨⟨hx2, hx1⟩, ⟨hy2, hy1⟩⟩
      exact ⟨hx1, hx2, hy1, hy2⟩
  · intro hw hh
    exact (isCollision_eq_true_iff A A).mpr
      ⟨by linarith, by linarith, by linarith, by linarith⟩
  · intro hwA hwB hsep
    rw [Bool.eq_false_iff]
    intro hc
    obtain ⟨hx1, hx2, -, -⟩ := (isCollision_eq_true_iff A B).mp hc
    rcases abs_cases (A.xPos - B.xPos) with ⟨he, -⟩ | ⟨he, -⟩ <;> rw [he] at hsep <;> linarith
  · intro hhA hhB hsep
    rw [Bool.eq_false_iff]
    intro hc
    obtain ⟨-, -, hy1, hy2⟩ := (isCollision_eq_true_iff A B).mp hc
    rcases abs_cases (A.yPos - B.yPos) with ⟨he, -⟩ | ⟨he, -⟩ <;> rw [he] at hsep <;> linarith

/-- Witness for C4 at two concrete rectangles: the player-sized box
collides with itself, and the same box moved 200px right does not. -/
theorem isCollision_overlap_spec_witness :
    (0:ℚ) ≤ 75 ∧ (0:ℚ) ≤ 57 ∧
    isCollision ⟨215, 224, 75, 57⟩ ⟨215, 224, 75, 57⟩ = true ∧
    isCollision ⟨415, 224, 75, 57⟩ ⟨215, 224, 75, 57⟩ = false :=
  ⟨by norm_num, by norm_num,
   (isCollision_overlap_spec ⟨215, 224, 75, 57⟩ ⟨215, 224, 75, 57⟩).2.1
     (by norm_num) (by norm_num),
   (isCollision_overlap_spec ⟨415, 224, 75, 57⟩ ⟨215, 224, 75, 57⟩).2.2.1
     (by norm_num) (by norm_num) (by norm_num)⟩

/-- Claim C10 counterexample: contrary to the claim, there is NO pair
of rectangles (of unequal widths or heights) on which `isCollision`
disagrees with its argument-swapped call: the test is commutative. -/
theorem isCollision_no_asymmetry :
    ¬ ∃ A B : Rect, (A.width ≠ B.width ∨ A.height ≠ B.height) ∧
      isCollision A B ≠ isCollision B A := by
  rintro ⟨A, B, -, hne⟩
  exact hne (isCollision_comm A B)

/-- Claim C10 (amended): `isCollision` is commutative for ALL
rectangles, equal-sized or not: the asymmetric-looking bound choices
(`B.width` for the right bound, `A.width` for the left bound) denote
the same overlap region when the arguments are swapped. -/
theorem isCollision_commutative (A B : Rect) :
    isCollision A B = isCollision B A :=
  isCollision_comm A B

/-! ## Claims about the player -/

lemma handleInput_bounds (p : Player) (s : String) (h : PlayerInBounds p) :
    PlayerInBounds (p.handleInput s) := by
  obtain ⟨h1, h2, h3, h4⟩ := h
  rw [MAP_ROWS] at h2
  rw [MAP_COLS] at h4
  unfold Player.handleInput
  unfold PlayerInBounds MAP_ROWS MAP_COLS
  split_ifs <;> simp_all <;> omega

lemma applyPStep_bounds (p : Player) (st : PStep) (h : PlayerInBounds p) :
    PlayerInBounds (applyPStep p st) := by
  cases st with
  | input s => exact handleInput_bounds p s h
  | enable b =>
    obtain ⟨h1, h2, h3, h4⟩ := h
    exact ⟨h1, h2, h3, h4⟩

lemma runPSteps_bounds (steps : List PStep) (p : Player) (h : PlayerInBounds p) :
    PlayerInBounds (runPSteps p steps) := by
  induction steps generalizing p with
  | nil => exact h
  | cons st rest ih => exact ih (applyPStep p st) (applyPStep_bounds p st h)

lemma initial_bounds : PlayerInBounds Player.initial := by
  unfold Player.initial Player.reset PlayerInBounds
  rw [floor_cols_half]
  norm_num [MAP_ROWS, MAP_COLS]

/-- Claim C3: starting from `reset()`, any sequence of `handleInput`
calls interleaved with arbitrary `enableMoves` settings keeps the
player's row in `[0,5]` and col in `[0,4]`; an unrecognized input, or
any input while moves are disabled, leaves the player unchanged. -/
theorem player_bounds_and_noop :
    (∀ steps : List PStep,
        0 ≤ (runPSteps Player.initial steps).row ∧
        (runPSteps Player.initial steps).row ≤ 5 ∧
        0 ≤ (runPSteps Player.initial steps).col ∧
        (runPSteps Player.initial steps).col ≤ 4) ∧
    (∀ (p : Player) (s : String), p.movingEnabled = false → p.handleInput s = p) ∧
    (∀ (p : Player) (s : String),
        s ≠ "left" → s ≠ "right" → s ≠ "up" → s ≠ "down" → p.handleInput s = p) := by
  refine ⟨?_, ?_, ?_⟩
  · intro steps
    have h := runPSteps_bounds steps Player.initial initial_bounds
    obtain ⟨h1, h2, h3, h4⟩ := h
    rw [MAP_ROWS] at h2
    rw [MAP_COLS] at h4
    exact ⟨h1, by omega, h3, by omega⟩
  · intro p s h
    unfold Player.handleInput
    rw [h]
    simp
  · intro p s hl hr hu hd
    unfold Player.handleInput
    split_ifs <;> simp_all

/-- Witness for C3: the empty step sequence keeps the start position in
bounds, a disabled player ignores "up", and "jump" is a no-op. -/
theorem player_bounds_and_noop_witness :
    (0 ≤ (runPSteps Player.initial []).row ∧
     (runPSteps Player.initial []).row ≤ 5 ∧
     0 ≤ (runPSteps Player.initial []).col ∧
     (runPSteps Player.initial []).col ≤ 4) ∧
    (Player.initial.enableMoves false).handleInput "up" =
      Player.initial.enableMoves false ∧
    Player.initial.handleInput "jump" = Player.initial :=
  ⟨player_bounds_and_noop.1 [],
   player_bounds_and_noop.2.1 (Player.initial.enableMoves false) "up" rfl,
   player_bounds_and_noop.2.2 Player.initial "jump"
     (by decide) (by decide) (by decide) (by decide)⟩

/-! ## Claims about the enemy -/

/-- Claim C2: `Enemy.update(dt)` increases x by `dt * speed` and
recycles exactly when the result exceeds the boundary one column-width
past the last column (`getXOffsetForCol(MAP_COLS) + X_OFFSET`); after
`reset()`, `x = X_START - X_OFFSET = -101`, the assigned row is in
`[1,3]` and the speed is in `[75,320]`. -/
theorem enemy_update_recycle (e : Enemy) (dt r1 r2 : ℚ)
    (h1 : 0 ≤ r1) (h2 : r1 < 1) (h3 : 0 ≤ r2) (h4 : r2 < 1) :
    (e.x + dt * e.speed > getXOffsetForCol MAP_COLS + X_OFFSET →
        Enemy.update e dt r1 r2 = Enemy.reset r1 r2) ∧
    (e.x + dt * e.speed ≤ getXOffsetForCol MAP_COLS + X_OFFSET →
        Enemy.update e dt r1 r2 = { e with x := e.x + dt * e.speed }) ∧
    (Enemy.reset r1 r2).x = X_START - X_OFFSET ∧
    X_START - X_OFFSET = -101 ∧
    (∃ row : ℤ, 1 ≤ row ∧ row ≤ 3 ∧ (Enemy.reset r1 r2).y = getYOffsetForRow row) ∧
    MIN_SPEED ≤ (Enemy.reset r1 r2).speed ∧ (Enemy.reset r1 r2).speed ≤ MAX_SPEED := by
  refine ⟨?_, ?_, rfl, by norm_num [X_START, X_OFFSET], ?_, ?_, ?_⟩
  · intro h
    unfold Enemy.update
    rw [if_pos h]
  · intro h
    unfold Enemy.update
    rw [if_neg (by exact not_lt.mpr h)]
  · refine ⟨⌊r1 * (4 - 1)⌋ + 1, ?_, ?_, rfl⟩
    · have : (0:ℤ) ≤ ⌊r1 * (4 - 1)⌋ := Int.floor_nonneg.mpr (by nlinarith)
      omega
    · have : ⌊r1 * (4 - 1)⌋ < 3 := Int.floor_lt.mpr (by push_cast; nlinarith)
      omega
  · unfold Enemy.reset MIN_SPEED MAX_SPEED
    dsimp only
    nlinarith
  · unfold Enemy.reset MIN_SPEED MAX_SPEED
    dsimp only
    nlinarith

/-- Witness for C2: an enemy at x = 600 moving at 100 px/s for one
second crosses the 606px boundary and recycles. -/
theorem enemy_update_recycle_witness :
    ((0:ℚ) ≤ 0 ∧ (0:ℚ) < 1) ∧
    Enemy.update ⟨600, 128, 100⟩ 1 0 0 = Enemy.reset 0 0 :=
  ⟨⟨le_refl 0, by norm_num⟩,
   (enemy_update_recycle ⟨600, 128, 100⟩ 1 0 0
      (by norm_num) (by norm_num) (by norm_num) (by norm_num)).1
     (by norm_num [getXOffsetForCol, MAP_COLS, X_START, X_OFFSET])⟩

/-! ## Claims about the scoreboard state machine -/

/-- Claim C1: while running, if `player.row ≤ 0` at the start of a
scoreboard update, that update increments the score by exactly 1, sets
the won flag, disables movement, and resets the player to
`row = MAP_ROWS - 1 = 5`, `col = 2`. -/
theorem goal_reached_update (w : World) (hrun : w.running = true)
    (hrow : w.player.row ≤ 0) :
    (checkWinAndCollision w).score = w.score + 1 ∧
    (checkWinAndCollision w).won = true ∧
    (checkWinAndCollision w).player.movingEnabled = false ∧
    (checkWinAndCollision w).player.row = MAP_ROWS - 1 ∧
    MAP_ROWS - 1 = 5 ∧
    (checkWinAndCollision w).player.col = 2 := by
  unfold checkWinAndCollision
  rw [if_pos hrun, if_pos hrow]
  unfold Player.reset Player.enableMoves
  rw [floor_cols_half]
  norm_num [MAP_ROWS]

/-- Witness for C1 at a concrete running world with the player on
row 0. -/
theorem goal_reached_update_witness :
    (winWorld.running = true ∧ winWorld.player.row ≤ 0) ∧
    (checkWinAndCollision winWorld).score = winWorld.score + 1 ∧
    (checkWinAndCollision winWorld).won = true ∧
    (checkWinAndCollision winWorld).player.movingEnabled = false ∧
    (checkWinAndCollision winWorld).player.row = MAP_ROWS - 1 ∧
    MAP_ROWS - 1 = 5 ∧
    (checkWinAndCollision winWorld).player.col = 2 :=
  ⟨⟨rfl, by decide⟩, goal_reached_update winWorld rfl (by decide)⟩

/-- Claim C6: from a state with no active hazards, `startGame()` leaves
exactly 7 hazards, resets the timer to the full duration, clears the
game-over flag and enables movement; `handleGameOver()` stops the game,
disables movement, resets the player, sets the game-over flag and
empties both active sets. -/
theorem startGame_handleGameOver_effects (w : World) (rands : Fin 7 → ℚ × ℚ)
    (h : w.allEnemies = []) :
    (startGame w rands).running = true ∧
    (startGame w rands).allEnemies.length = 7 ∧
    (startGame w rands).currentTime = GAME_TIME ∧
    GAME_TIME = 60 ∧
    (startGame w rands).gameOver = false ∧
    (startGame w rands).player.movingEnabled = true ∧
    (handleGameOver w).running = false ∧
    (handleGameOver w).player.movingEnabled = false ∧
    (handleGameOver w).player.row = 5 ∧
    (handleGameOver w).player.col = 2 ∧
    (handleGameOver w).gameOver = true ∧
    (handleGameOver w).allEnemies = [] ∧
    (handleGameOver w).bonusItems = [] := by
  unfold startGame handleGameOver Player.enableMoves Player.reset
  rw [h, floor_cols_half]
  norm_num [MAP_ROWS, GAME_TIME]

/-- Witness for C6 at a concrete idle world. -/
theorem startGame_handleGameOver_effects_witness :
    idleWorld.allEnemies = [] ∧
    (startGame idleWorld (fun _ => (0, 0))).allEnemies.length = 7 ∧
    (handleGameOver idleWorld).allEnemies = [] ∧
    (handleGameOver idleWorld).bonusItems = [] :=
  ⟨rfl,
   (startGame_handleGameOver_effects idleWorld (fun _ => (0, 0)) rfl).2.1,
   (startGame_handleGameOver_effects idleWorld (fun _ => (0, 0)) rfl).2.2.2.2.2.2.2.2.2.2.2.1,
   (startGame_handleGameOver_effects idleWorld (fun _ => (0, 0)) rfl).2.2.2.2.2.2.2.2.2.2.2.2⟩

/-- The shared collision box of the three characters parked at pixel
position (202, 211) collides with itself. -/
lemma box202_collide :
    isCollision (collisionDimsAt 202 211) (collisionDimsAt 202 211) = true := by
  rw [isCollision_eq_true_iff]
  norm_num [collisionDimsAt, collisionBuffer, CHAR_SIZE_X, CHAR_SIZE_Y]

lemma any_enemy_dualHit :
    dualHitWorld.allEnemies.any
      (fun e => isCollision dualHitWorld.player.getCollisionDims e.getCollisionDims) = true := by
  show (isCollision (collisionDimsAt 202 211) (collisionDimsAt 202 211) || false) = true
  rw [box202_collide]
  rfl

lemma any_bonus_dualHit :
    dualHitWorld.bonusItems.any
      (fun b => isCollision dualHitWorld.player.getCollisionDims b.getCollisionDims) = true := by
  show (isCollision (collisionDimsAt 202 211) (collisionDimsAt 202 211) || false) = true
  rw [box202_collide]
  rfl

lemma any_enemy_hazardOnly :
    hazardOnlyWorld.allEnemies.any
      (fun e => isCollision hazardOnlyWorld.player.getCollisionDims e.getCollisionDims) = true := by
  show (isCollision (collisionDimsAt 202 211) (collisionDimsAt 202 211) || false) = true
  rw [box202_collide]
  rfl

lemma any_bonus_bonusOnly :
    bonusOnlyWorld.bonusItems.any
      (fun b => isCollision bonusOnlyWorld.player.getCollisionDims b.getCollisionDims) = true := by
  show (isCollision (collisionDimsAt 202 211) (collisionDimsAt 202 211) || false) = true
  rw [box202_collide]
  rfl

/-- Evaluation of `checkWinAndCollision` on the branch where both the
enemy loop and the bonus loop hit. -/
lemma checkWin_hazard_bonus (w : World) (hrun : w.running = true)
    (hrow : 0 < w.player.row)
    (he : w.allEnemies.any
      (fun e => isCollision w.player.getCollisionDims e.getCollisionDims) = true)
    (hb : w.bonusItems.any
      (fun b => isCollision w.player.getCollisionDims b.getCollisionDims) = true) :
    checkWinAndCollision w =
      { w with score := w.score - 1 + 1, lost := true, bonus := true,
               player := (w.player.reset).enableMoves false, bonusItems := [] } := by
  unfold checkWinAndCollision
  rw [if_pos hrun, if_neg (by omega)]
  simp only [he, hb, if_true]

/-- Evaluation of `checkWinAndCollision` on the branch where only the
bonus loop hits. -/
lemma checkWin_bonus_only (w : World) (hrun : w.running = true)
    (hrow : 0 < w.player.row)
    (he : w.allEnemies.any
      (fun e => isCollision w.player.getCollisionDims e.getCollisionDims) = false)
    (hb : w.bonusItems.any
      (fun b => isCollision w.player.getCollisionDims b.getCollisionDims) = true) :
    checkWinAndCollision w =
      { w with score := w.score + 1, bonus := true, bonusItems := [] } := by
  unfold checkWinAndCollision
  rw [if_pos hrun, if_neg (by omega)]
  simp only [he, hb, if_true, if_false, Bool.false_eq_true]

/-- Claim C7 counterexample: in a running world where the player
overlaps both an enemy and a bonus item, the update does NOT change
the score by -1 (the unguarded bonus loop adds the point back), so
a hazard collision does not always decrement the score by exactly 1. -/
theorem hazard_score_counterexample :
    dualHitWorld.running = true ∧ 0 < dualHitWorld.player.row ∧
    dualHitWorld.allEnemies.any
      (fun e => isCollision dualHitWorld.player.getCollisionDims e.getCollisionDims) = true ∧
    (checkWinAndCollision dualHitWorld).score ≠ dualHitWorld.score - 1 := by
  refine ⟨rfl, by decide, any_enemy_dualHit, ?_⟩
  rw [checkWin_hazard_bonus dualHitWorld rfl (by decide) any_enemy_dualHit any_bonus_dualHit]
  decide

/-- Claim C7 (amended): while running with `player.row > 0`, if the
player's collision box intersects some hazard's box AND no bonus item's
box, the update decrements the score by exactly 1, sets the lost flag,
resets the player and disables movement.  (Without the no-bonus
proviso the bonus loop, which is not gated on the hazard outcome, can
add the point back in the same update.) -/
theorem hazard_collision_amended (w : World) (hrun : w.running = true)
    (hrow : 0 < w.player.row)
    (hhit : w.allEnemies.any
      (fun e => isCollision w.player.getCollisionDims e.getCollisionDims) = true)
    (hnob : w.bonusItems.any
      (fun b => isCollision w.player.getCollisionDims b.getCollisionDims) = false) :
    (checkWinAndCollision w).score = w.score - 1 ∧
    (checkWinAndCollision w).lost = true ∧
    (checkWinAndCollision w).player.row = 5 ∧
    (checkWinAndCollision w).player.col = 2 ∧
    (checkWinAndCollision w).player.movingEnabled = false := by
  unfold checkWinAndCollision
  rw [if_pos hrun, if_neg (by omega)]
  simp only [hhit, hnob, if_true, if_false, Bool.false_eq_true]
  unfold Player.reset Player.enableMoves
  rw [floor_cols_half]
  norm_num [MAP_ROWS]

/-- Witness for amended C7: the hazard-only world loses one point. -/
theorem hazard_collision_amended_witness :
    hazardOnlyWorld.running = true ∧
    (checkWinAndCollision hazardOnlyWorld).score = hazardOnlyWorld.score - 1 ∧
    (checkWinAndCollision hazardOnlyWorld).lost = true :=
  ⟨rfl,
   (hazard_collision_amended hazardOnlyWorld rfl (by decide) any_enemy_hazardOnly rfl).1,
   (hazard_collision_amended hazardOnlyWorld rfl (by decide) any_enemy_hazardOnly rfl).2.1⟩

/-- Claim C5 counterexample: the bonus-collision test is NOT skipped
when a hazard collision happened in the same update: in the dual-hit
world the hazard loop fires, yet the bonus flag still becomes true and
the bonus item is still consumed. -/
theorem bonus_after_hazard_counterexample :
    dualHitWorld.running = true ∧ 0 < dualHitWorld.player.row ∧
    dualHitWorld.allEnemies.any
      (fun e => isCollision dualHitWorld.player.getCollisionDims e.getCollisionDims) = true ∧
    dualHitWorld.bonus = false ∧
    (checkWinAndCollision dualHitWorld).lost = true ∧
    (checkWinAndCollision dualHitWorld).bonus = true ∧
    (checkWinAndCollision dualHitWorld).bonusItems = [] := by
  refine ⟨rfl, by decide, any_enemy_dualHit, rfl, ?_, ?_, ?_⟩ <;>
    rw [checkWin_hazard_bonus dualHitWorld rfl (by decide) any_enemy_dualHit any_bonus_dualHit]

/-- Claim C5 (amended): within a running update the bonus-collision
test is skipped only when the player reached the goal; it also runs
after a hazard collision, against the player's pre-reset collision
box.  On a bonus hit the score is incremented by 1 (on top of any
hazard decrement), the bonus flag is set, the bonus items are cleared,
and the bonus branch itself never disables movement (movement ends up
disabled only when the hazard branch fired). -/
theorem bonus_branch_amended (w : World) (hrun : w.running = true) :
    (w.player.row ≤ 0 →
        (checkWinAndCollision w).bonus = w.bonus ∧
        (checkWinAndCollision w).bonusItems = w.bonusItems) ∧
    (0 < w.player.row →
      w.bonusItems.any
        (fun b => isCollision w.player.getCollisionDims b.getCollisionDims) = true →
        (checkWinAndCollision w).bonus = true ∧
        (checkWinAndCollision w).bonusItems = [] ∧
        (checkWinAndCollision w).score =
          (if w.allEnemies.any
              (fun e => isCollision w.player.getCollisionDims e.getCollisionDims)
           then w.score else w.score + 1) ∧
        (checkWinAndCollision w).player.movingEnabled =
          (if w.allEnemies.any
              (fun e => isCollision w.player.getCollisionDims e.getCollisionDims)
           then false else w.player.movingEnabled)) := by
  constructor
  · intro hrow
    unfold checkWinAndCollision
    rw [if_pos hrun, if_pos hrow]
    exact ⟨rfl, rfl⟩
  · intro hrow hb
    by_cases he : w.allEnemies.any
        (fun e => isCollision w.player.getCollisionDims e.getCollisionDims) = true
    · rw [checkWin_hazard_bonus w hrun hrow he hb, if_pos he, if_pos he]
      refine ⟨rfl, rfl, by show w.score - 1 + 1 = w.score; omega, rfl⟩
    · rw [Bool.not_eq_true] at he
      rw [checkWin_bonus_only w hrun hrow he hb]
      rw [if_neg (by rw [he]; exact Bool.false_ne_true),
          if_neg (by rw [he]; exact Bool.false_ne_true)]
      exact ⟨rfl, rfl, rfl, rfl⟩

/-- Witness for amended C5: the bonus-only world gains one point and
keeps movement enabled. -/
theorem bonus_branch_amended_witness :
    bonusOnlyWorld.running = true ∧
    (checkWinAndCollision bonusOnlyWorld).bonus = true ∧
    (checkWinAndCollision bonusOnlyWorld).bonusItems = [] :=
  ⟨rfl,
   ((bonus_branch_amended bonusOnlyWorld rfl).2 (by decide) any_bonus_bonusOnly).1,
   ((bonus_branch_amended bonusOnlyWorld rfl).2 (by decide) any_bonus_bonusOnly).2.1⟩

/-! ## Claims about the countdown interval -/

lemma countdownRun_cancelled (n : ℕ) (s : CountdownState)
    (h : s.cancelled = true) : countdownRun n s = s := by
  induction n with
  | zero => rfl
  | succ n ih =>
    show countdownRun n (countdownTick s) = s
    have ht : countdownTick s = s := by
      unfold countdownTick
      rw [if_pos h]
    rw [ht]
    exact ih

lemma countdownRun_gameOverCalls (n : ℕ) :
    ∀ (s : CountdownState) (t : ℕ), s.cancelled = false → s.gameOverCalls = 0 →
      s.world.currentTime = (t : ℤ) →
      (countdownRun n s).gameOverCalls = if t < n then 1 else 0 := by
  induction n with
  | zero =>
    intro s t _ h2 _
    simp [countdownRun, h2]
  | succ n ih =>
    intro s t h1 h2 h3
    show (countdownRun n (countdownTick s)).gameOverCalls = _
    rcases Nat.eq_zero_or_pos t with ht | ht
    · subst ht
      have hz : s.world.currentTime = 0 := by simpa using h3
      have htick : countdownTick s =
          { world := handleGameOver s.world, cancelled := true,
            gameOverCalls := s.gameOverCalls + 1 } := by
        unfold countdownTick
        rw [if_neg (by simp [h1]), if_pos hz]
      rw [htick, countdownRun_cancelled n _ rfl]
      simp [h2]
    · have hnz : ¬ s.world.currentTime = 0 := by
        rw [h3]
        exact_mod_cast Nat.pos_iff_ne_zero.mp ht
      have htick : countdownTick s =
          { s with world := { s.world with currentTime := s.world.currentTime - 1 } } := by
        unfold countdownTick
        rw [if_neg (by simp [h1]), if_neg hnz]
      rw [htick]
      have hstep := ih { s with world :=
          { s.world with currentTime := s.world.currentTime - 1 } } (t - 1) h1 h2
        (by rw [h3]; push_cast; omega)
      rw [hstep]
      split_ifs <;> omega

/-- Claim C9 counterexample: countdown ticks do NOT check the running
flag: on a state where running is already false but the clock reads 5,
the tick neither cancels the interval nor leaves the state unchanged —
it decrements the clock to 4. -/
theorem countdown_ignores_running_counterexample :
    stoppedClockWorld.running = false ∧
    (countdownTick
      { world := stoppedClockWorld, cancelled := false, gameOverCalls := 0 }).cancelled
      = false ∧
    (countdownTick
      { world := stoppedClockWorld, cancelled := false, gameOverCalls := 0 }).world.currentTime
      = 4 := by
  decide

/-- Claim C9 (amended): a countdown tick tests only the remaining
time, not the running flag: when the clock is nonzero it decrements it
by one second (whatever the running flag is) without cancelling; when
the clock reads zero it cancels the interval and triggers
`handleGameOver()`, which over any run of ticks happens exactly once. -/
theorem countdown_tick_amended (s : CountdownState) (t : ℕ)
    (hc : s.cancelled = false) (hg : s.gameOverCalls = 0)
    (ht : s.world.currentTime = (t : ℤ)) :
    (0 < t →
        (countdownTick s).cancelled = false ∧
        (countdownTick s).world.currentTime = (t : ℤ) - 1 ∧
        (countdownTick s).gameOverCalls = 0) ∧
    (t = 0 →
        (countdownTick s).cancelled = true ∧
        (countdownTick s).world = handleGameOver s.world ∧
        (countdownTick s).gameOverCalls = 1) ∧
    (∀ n : ℕ, (countdownRun n s).gameOverCalls = if t < n then 1 else 0) := by
  refine ⟨?_, ?_, fun n => countdownRun_gameOverCalls n s t hc hg ht⟩
  · intro htpos
    have hnz : ¬ s.world.currentTime = 0 := by
      rw [ht]
      exact_mod_cast Nat.pos_iff_ne_zero.mp htpos
    have htick : countdownTick s =
        { s with world := { s.world with currentTime := s.world.currentTime - 1 } } := by
      unfold countdownTick
      rw [if_neg (by simp [hc]), if_neg hnz]
    rw [htick]
    exact ⟨hc, by rw [ht], hg⟩
  · intro htz
    subst htz
    have hz : s.world.currentTime = 0 := by simpa using ht
    have htick : countdownTick s =
        { world := handleGameOver s.world, cancelled := true,
          gameOverCalls := s.gameOverCalls + 1 } := by
      unfold countdownTick
      rw [if_neg (by simp [hc]), if_pos hz]
    rw [htick, hg]
    exact ⟨rfl, rfl, rfl⟩

/-- Witness for amended C9: starting two seconds from expiry, five
ticks trigger exactly one game over. -/
theorem countdown_tick_amended_witness :
    (nearExpiryCountdown.cancelled = false ∧
     nearExpiryCountdown.gameOverCalls = 0 ∧
     nearExpiryCountdown.world.currentTime = ((2 : ℕ) : ℤ)) ∧
    (countdownRun 5 nearExpiryCountdown).gameOverCalls = if 2 < 5 then 1 else 0 :=
  ⟨⟨rfl, rfl, rfl⟩,
   (countdown_tick_amended nearExpiryCountdown 2 rfl rfl rfl).2.2 5⟩

end SpeedFrogger
